import Mathlib

/-!
Verification of the gl-tutorial repository: four standalone Go/OpenGL
tutorial programs (window/context bootstrap, a rotating reflective cube
with stencil reflection, a flat-color triangle, a textured quad drawn via
an element buffer).

The Go programs are shallowly embedded: the external library calls
(GLFW, OpenGL, glu, png decoding) are modelled by explicit inputs
(environment records describing the outcome of each fallible call) and by
explicit traces of the GL commands each program issues.  Pure Go code
(the key callback, the texture row-flipping loop, the per-frame command
sequences) is translated function by function from the source.
-/

namespace GLTutorial

/-! ## GLFW event model

`glfw.Action` has the three values Press/Release/Repeat; keys are plain
integers in the Go binding (`glfw.KeyEscape`).  A window's only piece of
state that the programs ever touch is its should-close flag
(`SetShouldClose` / `ShouldClose`). -/

inductive Action where
  | press
  | release
  | rep
deriving DecidableEq, Repr

/-- The GLFW escape key constant (`glfw.KeyEscape`). -/
def keyEscape : Nat := 256

structure Window where
  shouldClose : Bool
deriving DecidableEq, Repr

/-- `window.SetShouldClose(b)`. -/
def setShouldClose (w : Window) (b : Bool) : Window := { w with shouldClose := b }

/-- A key event as delivered by GLFW to the key callback:
key, scancode, action, modifier bits. -/
structure KeyEvent where
  key : Nat
  scancode : Int
  action : Action
  mods : Nat
deriving DecidableEq, Repr

/-- The `handleKey` callback, identical in all four programs:

    func handleKey(window *glfw.Window, k glfw.Key, s int, action glfw.Action, mods glfw.ModifierKey) {
        if action != glfw.Press { return }
        if k == glfw.KeyEscape { window.SetShouldClose(true) }
    }
-/
def handleKey (w : Window) (k : Nat) (s : Int) (action : Action) (mods : Nat) : Window :=
  if action ≠ Action.press then w
  else if k = keyEscape then setShouldClose w true
  else w

/-- `glfw.PollEvents()`: deliver a batch of pending key events to the
registered key callback, in order. -/
def pollEvents (w : Window) (evs : List KeyEvent) : Window :=
  evs.foldl (fun w' e => handleKey w' e.key e.scancode e.action e.mods) w

/-- The render loop skeleton shared by all four programs:

    for !window.ShouldClose() { ...frame body...; glfw.PollEvents() }

The loop is observed along a finite schedule of event batches (one batch
per `PollEvents` call); the result is the number of loop iterations that
run within that schedule. -/
def renderLoop (w : Window) : List (List KeyEvent) → Nat
  | [] => 0
  | b :: bs => if w.shouldClose then 0 else 1 + renderLoop (pollEvents w b) bs

/-! ## OpenGL constants

Numeric values of the GL enums the programs use, as defined by the
OpenGL headers that back the go-gl binding. -/

def NO_ERROR : Nat := 0
def TRIANGLES : Nat := 0x0004
def UNSIGNED_INT : Nat := 0x1405
def COLOR_BUFFER_BIT : Nat := 0x4000
def DEPTH_BUFFER_BIT : Nat := 0x0100
def STENCIL_BUFFER_BIT : Nat := 0x0400
def STENCIL_TEST : Nat := 0x0B90
def ALWAYS : Nat := 0x0207
def EQUAL : Nat := 0x0202
def KEEP : Nat := 0x1E00
def REPLACE : Nat := 0x1E01
def glTRUE : Int := 1

/-! ## checkError

    func checkError(prefix string) {
        if glError := gl.GetError(); glError != gl.NO_ERROR {
            errorString, err := glu.ErrorString(glError)
            if err != nil { fmt.Printf("%s: unspecified error!\n", prefix) }
            else { fmt.Printf("%s error: %s\n", prefix, errorString) }
        }
    }

The polled error code is an input; `glu.ErrorString` is modelled by a
function the caller supplies (`.error` modelling a non-nil Go error).
The result is the list of lines printed; nothing else happens. -/

def checkError (gluErrorString : Nat → Except Unit String)
    (pre : String) (glError : Nat) : List String :=
  if glError ≠ NO_ERROR then
    match gluErrorString glError with
    | .error _ => [pre ++ ": unspecified error!"]
    | .ok s => [pre ++ " error: " ++ s]
  else []

/-! ## createTexture

The texture loader shared (verbatim) by the textured-quad and
reflective-cube programs.  A Go `*image.NRGBA` carries a flat `Pix`
byte slice, a row `Stride` and bounds; bytes are modelled as `Nat`. -/

structure NRGBAImage where
  width : Nat
  height : Nat
  stride : Nat
  pix : List Nat
deriving DecidableEq, Repr

/-- Outcome of `png.Decode` followed by the `*image.NRGBA` type
assertion, describing the reader handed to `createTexture`. -/
inductive DecodeResult where
  | decodeError (msg : String)
  | notNRGBA
  | nrgba (img : NRGBAImage)
deriving DecidableEq, Repr

/-- GPU-object-creating and file-opening calls made during setup. -/
inductive SetupEvent where
  | genVertexArray
  | genBuffers (n : Nat)
  | genTexture
  | openFile (name : String)
deriving DecidableEq, Repr

/-- The arguments recorded by the final `gl.TexImage2D` call. -/
structure TexUpload where
  width : Nat
  height : Nat
  data : List Nat
deriving DecidableEq, Repr

/-- Result of `createTexture`: an error return `(gl.Texture(0), err)`, a
Go runtime panic raised by the copy loop (slice bounds out of range, or
the loop never advancing), or a successful texture upload. -/
inductive TexResult where
  | errorReturn (msg : String)
  | runtimePanic
  | okTex (u : TexUpload)
deriving DecidableEq, Repr

/-- One iteration's `copy(data[dest:dest+lineLen], pix[src:src+stride])`:
overwrite `data` at positions `[dest, dest+n)` with the first `n` bytes
of `row`, where `n = min lineLen stride` is the number of bytes Go's
`copy` moves between the two slices. -/
def goCopy (data : List Nat) (dest n : Nat) (row : List Nat) : List Nat :=
  data.take dest ++ row.take n ++ data.drop (dest + n)

/-- The image-flipping loop of `createTexture`:

    dest := len(data) - lineLen
    for src := 0; src < len(rgbaImg.Pix); src += stride {
        copy(data[dest:dest+lineLen], rgbaImg.Pix[src:src+stride])
        dest -= lineLen
    }

`fuel` bounds the number of iterations (the caller passes `pix.length`,
which suffices whenever `stride ≥ 1`); `none` models a Go runtime
failure: a slice index out of range, or the loop never terminating
(`stride = 0` with a nonempty `pix`). -/
def flipLoop (pix : List Nat) (stride lineLen : Nat) :
    Nat → Nat → Int → List Nat → Option (List Nat)
  | fuel + 1, src, dest, data =>
    if src < pix.length then
      if stride = 0 then none
      else if pix.length < src + stride then none
      else if dest < 0 then none
      else if (data.length : Int) < dest + (lineLen : Int) then none
      else
        flipLoop pix stride lineLen fuel (src + stride) (dest - (lineLen : Int))
          (goCopy data dest.toNat (min lineLen stride) ((pix.drop src).take stride))
    else some data
  | 0, src, _, data => if src < pix.length then none else some data

/-- `createTexture` (named after the Go function):

    img, err := png.Decode(r)
    if err != nil { return gl.Texture(0), err }
    rgbaImg, ok := img.(*image.NRGBA)
    if !ok { return gl.Texture(0), errors.New("texture must be an NRGBA image") }
    textureId := gl.GenTexture()
    ... filter parameters ...
    imgWidth, imgHeight := img.Bounds().Dx(), img.Bounds().Dy()
    data := make([]byte, imgWidth*imgHeight*4)
    lineLen := imgWidth * 4
    ... flip loop ...
    gl.TexImage2D(..., imgWidth, imgHeight, ..., data)
    return textureId, nil

Besides the result, the list of GPU-object events it raised is returned
(`GenTexture` happens only once decoding and the type assertion
succeed). -/
def createTexture (r : DecodeResult) : TexResult × List SetupEvent :=
  match r with
  | .decodeError msg => (.errorReturn msg, [])
  | .notNRGBA => (.errorReturn "texture must be an NRGBA image", [])
  | .nrgba img =>
    match flipLoop img.pix img.stride (img.width * 4) img.pix.length 0
        (((img.width * img.height * 4 : Nat) : Int) - ((img.width * 4 : Nat) : Int))
        (List.replicate (img.width * img.height * 4) 0) with
    | none => (.runtimePanic, [.genTexture])
    | some d => (.okTex ⟨img.width, img.height, d⟩, [.genTexture])

/-- Whether `createTexture` succeeds on the given decoded input. -/
def texOk (r : DecodeResult) : Bool :=
  match (createTexture r).1 with
  | .okTex _ => true
  | _ => false

/-! ## Program setup

Each `main` is a straight line of fallible library calls followed by the
render loop.  `SetupEnv` records the outcome of every external call a
setup can make (fields unused by a given program are simply not read):
GLFW init, primary-monitor lookup, window creation, the two `os.Open`
calls, the two png decodes, the two shader-compile statuses
(`Get(gl.COMPILE_STATUS)`), whether `program.Link()` succeeded, and the
`Get(gl.VALIDATE_STATUS)` value read after `program.Validate()`. -/

structure SetupEnv where
  glfwInitOk : Bool
  primaryMonitorOk : Bool
  createWindowOk : Bool
  openSampleOk : Bool
  sampleDecode : DecodeResult
  openSample2Ok : Bool
  sample2Decode : DecodeResult
  vertexCompileStatus : Int
  fragmentCompileStatus : Int
  linkOk : Bool
  validateStatus : Int
deriving DecidableEq, Repr

/-- How a program's setup phase ends: a Go `panic` (which prints its
argument and aborts the process), or reaching the render loop. -/
inductive SetupOutcome where
  | panicked (msg : String)
  | ok
deriving DecidableEq, Repr

/-- Setup phase of the bare context-creation program: GLFW init,
primary-monitor lookup, window creation, then `gl.GenBuffers` on a
slice of length 1.  Any failed step panics with a diagnostic. -/
def ctxSetup (env : SetupEnv) : SetupOutcome × List SetupEvent :=
  if env.glfwInitOk = false then (.panicked "Can't init glfw!", [])
  else if env.primaryMonitorOk = false then (.panicked "GetPrimaryMonitor failed", [])
  else if env.createWindowOk = false then (.panicked "CreateWindow failed", [])
  else (.ok, [.genBuffers 1])

/-- Setup phase of the flat-color triangle program: GLFW init, window,
VAO, one VBO, vertex and fragment shader compiles (status checked
against `gl.TRUE`), then link/use/validate with the validate status
checked against `gl.TRUE`.  Each failed check panics. -/
def triangleSetup (env : SetupEnv) : SetupOutcome × List SetupEvent :=
  if env.glfwInitOk = false then (.panicked "Can't init glfw!", [])
  else if env.createWindowOk = false then (.panicked "CreateWindow failed", [])
  else if env.vertexCompileStatus ≠ glTRUE then
    (.panicked "vertex shader compilation error", [.genVertexArray, .genBuffers 1])
  else if env.fragmentCompileStatus ≠ glTRUE then
    (.panicked "fragment shader compilation error", [.genVertexArray, .genBuffers 1])
  else if env.validateStatus ≠ glTRUE then
    (.panicked "program error", [.genVertexArray, .genBuffers 1])
  else (.ok, [.genVertexArray, .genBuffers 1])

/-- Setup phase of the reflective-cube program: GLFW init, window, VAO,
one VBO, `sample.png` and `sample2.png` opened and fed to
`createTexture` (either an open error or a texture error panics), the
two shader compiles, then link/use/validate. -/
def cubeSetup (env : SetupEnv) : SetupOutcome × List SetupEvent :=
  if env.glfwInitOk = false then (.panicked "Can't init glfw!", [])
  else if env.createWindowOk = false then (.panicked "CreateWindow failed", [])
  else
    if env.openSampleOk = false then
      (.panicked "open sample.png failed",
        [.genVertexArray, .genBuffers 1, .openFile "sample.png"])
    else
      match (createTexture env.sampleDecode).1 with
      | .errorReturn msg =>
        (.panicked msg,
          [.genVertexArray, .genBuffers 1, .openFile "sample.png"]
            ++ (createTexture env.sampleDecode).2)
      | .runtimePanic =>
        (.panicked "runtime error: slice bounds out of range",
          [.genVertexArray, .genBuffers 1, .openFile "sample.png"]
            ++ (createTexture env.sampleDecode).2)
      | .okTex _ =>
        if env.openSample2Ok = false then
          (.panicked "open sample2.png failed",
            [.genVertexArray, .genBuffers 1, .openFile "sample.png"]
              ++ (createTexture env.sampleDecode).2 ++ [.openFile "sample2.png"])
        else
          match (createTexture env.sample2Decode).1 with
          | .errorReturn msg =>
            (.panicked msg,
              [.genVertexArray, .genBuffers 1, .openFile "sample.png"]
                ++ (createTexture env.sampleDecode).2 ++ [.openFile "sample2.png"]
                ++ (createTexture env.sample2Decode).2)
          | .runtimePanic =>
            (.panicked "runtime error: slice bounds out of range",
              [.genVertexArray, .genBuffers 1, .openFile "sample.png"]
                ++ (createTexture env.sampleDecode).2 ++ [.openFile "sample2.png"]
                ++ (createTexture env.sample2Decode).2)
          | .okTex _ =>
            if env.vertexCompileStatus ≠ glTRUE then
              (.panicked "vertex shader compilation error",
                [.genVertexArray, .genBuffers 1, .openFile "sample.png"]
                  ++ (createTexture env.sampleDecode).2 ++ [.openFile "sample2.png"]
                  ++ (createTexture env.sample2Decode).2)
            else if env.fragmentCompileStatus ≠ glTRUE then
              (.panicked "fragment shader compilation error",
                [.genVertexArray, .genBuffers 1, .openFile "sample.png"]
                  ++ (createTexture env.sampleDecode).2 ++ [.openFile "sample2.png"]
                  ++ (createTexture env.sample2Decode).2)
            else if env.validateStatus ≠ glTRUE then
              (.panicked "program error",
                [.genVertexArray, .genBuffers 1, .openFile "sample.png"]
                  ++ (createTexture env.sampleDecode).2 ++ [.openFile "sample2.png"]
                  ++ (createTexture env.sample2Decode).2)
            else
              (.ok,
                [.genVertexArray, .genBuffers 1, .openFile "sample.png"]
                  ++ (createTexture env.sampleDecode).2 ++ [.openFile "sample2.png"]
                  ++ (createTexture env.sample2Decode).2)

/-- Setup phase of the textured-quad program (`src/unnamed/part_000`):
like the cube's, but with a second `gl.GenBuffer()` for the element
buffer `ebo` right after the `vbo`. -/
def quadSetup (env : SetupEnv) : SetupOutcome × List SetupEvent :=
  if env.glfwInitOk = false then (.panicked "Can't init glfw!", [])
  else if env.createWindowOk = false then (.panicked "CreateWindow failed", [])
  else
    if env.openSampleOk = false then
      (.panicked "open sample.png failed",
        [.genVertexArray, .genBuffers 1, .genBuffers 1, .openFile "sample.png"])
    else
      match (createTexture env.sampleDecode).1 with
      | .errorReturn msg =>
        (.panicked msg,
          [.genVertexArray, .genBuffers 1, .genBuffers 1, .openFile "sample.png"]
            ++ (createTexture env.sampleDecode).2)
      | .runtimePanic =>
        (.panicked "runtime error: slice bounds out of range",
          [.genVertexArray, .genBuffers 1, .genBuffers 1, .openFile "sample.png"]
            ++ (createTexture env.sampleDecode).2)
      | .okTex _ =>
        if env.openSample2Ok = false then
          (.panicked "open sample2.png failed",
            [.genVertexArray, .genBuffers 1, .genBuffers 1, .openFile "sample.png"]
              ++ (createTexture env.sampleDecode).2 ++ [.openFile "sample2.png"])
        else
          match (createTexture env.sample2Decode).1 with
          | .errorReturn msg =>
            (.panicked msg,
              [.genVertexArray, .genBuffers 1, .genBuffers 1, .openFile "sample.png"]
                ++ (createTexture env.sampleDecode).2 ++ [.openFile "sample2.png"]
                ++ (createTexture env.sample2Decode).2)
          | .runtimePanic =>
            (.panicked "runtime error: slice bounds out of range",
              [.genVertexArray, .genBuffers 1, .genBuffers 1, .openFile "sample.png"]
                ++ (createTexture env.sampleDecode).2 ++ [.openFile "sample2.png"]
                ++ (createTexture env.sample2Decode).2)
          | .okTex _ =>
            if env.vertexCompileStatus ≠ glTRUE then
              (.panicked "vertex shader compilation error",
                [.genVertexArray, .genBuffers 1, .genBuffers 1, .openFile "sample.png"]
                  ++ (createTexture env.sampleDecode).2 ++ [.openFile "sample2.png"]
                  ++ (createTexture env.sample2Decode).2)
            else if env.fragmentCompileStatus ≠ glTRUE then
              (.panicked "fragment shader compilation error",
                [.genVertexArray, .genBuffers 1, .genBuffers 1, .openFile "sample.png"]
                  ++ (createTexture env.sampleDecode).2 ++ [.openFile "sample2.png"]
                  ++ (createTexture env.sample2Decode).2)
            else if env.validateStatus ≠ glTRUE then
              (.panicked "program error",
                [.genVertexArray, .genBuffers 1, .genBuffers 1, .openFile "sample.png"]
                  ++ (createTexture env.sampleDecode).2 ++ [.openFile "sample2.png"]
                  ++ (createTexture env.sample2Decode).2)
            else
              (.ok,
                [.genVertexArray, .genBuffers 1, .genBuffers 1, .openFile "sample.png"]
                  ++ (createTexture env.sampleDecode).2 ++ [.openFile "sample2.png"]
                  ++ (createTexture env.sample2Decode).2)

/-- Conjunction (as a `Bool`) of every check the triangle setup makes. -/
def triangleOk (env : SetupEnv) : Bool :=
  env.glfwInitOk && env.createWindowOk
    && (env.vertexCompileStatus == glTRUE) && (env.fragmentCompileStatus == glTRUE)
    && (env.validateStatus == glTRUE)

/-- Conjunction (as a `Bool`) of every check the context-creation setup makes. -/
def ctxOk (env : SetupEnv) : Bool :=
  env.glfwInitOk && env.primaryMonitorOk && env.createWindowOk

/-- Conjunction (as a `Bool`) of every check the cube setup makes. -/
def cubeOk (env : SetupEnv) : Bool :=
  env.glfwInitOk && env.createWindowOk
    && env.openSampleOk && texOk env.sampleDecode
    && env.openSample2Ok && texOk env.sample2Decode
    && (env.vertexCompileStatus == glTRUE) && (env.fragmentCompileStatus == glTRUE)
    && (env.validateStatus == glTRUE)

/-- Conjunction (as a `Bool`) of every check the quad setup makes. -/
def quadOk (env : SetupEnv) : Bool := cubeOk env

/-- Names passed to `os.Open` during a setup run. -/
def opensOf (evs : List SetupEvent) : List String :=
  evs.filterMap fun e =>
    match e with
    | .openFile name => some name
    | _ => none

/-- Number of GPU buffer objects generated during a setup run
(`gl.GenBuffer()` counts one, `gl.GenBuffers(s)` counts `len(s)`). -/
def buffersCreated (evs : List SetupEvent) : Nat :=
  (evs.map fun e =>
    match e with
    | .genBuffers n => n
    | _ => 0).sum

/-- Result of a whole program run: a setup panic, or a normal return
from `main` after the render loop exited. -/
inductive MainResult where
  | panicked (msg : String)
  | returned (frames : Nat)
deriving DecidableEq, Repr

/-- `main` of the context-creation program: setup, then the render loop
on a fresh (not should-close) window, then a normal return. -/
def ctxMain (env : SetupEnv) (inputs : List (List KeyEvent)) : MainResult :=
  match (ctxSetup env).1 with
  | .panicked m => .panicked m
  | .ok => .returned (renderLoop ⟨false⟩ inputs)

/-- `main` of the triangle program. -/
def triangleMain (env : SetupEnv) (inputs : List (List KeyEvent)) : MainResult :=
  match (triangleSetup env).1 with
  | .panicked m => .panicked m
  | .ok => .returned (renderLoop ⟨false⟩ inputs)

/-- `main` of the reflective-cube program. -/
def cubeMain (env : SetupEnv) (inputs : List (List KeyEvent)) : MainResult :=
  match (cubeSetup env).1 with
  | .panicked m => .panicked m
  | .ok => .returned (renderLoop ⟨false⟩ inputs)

/-- `main` of the textured-quad program. -/
def quadMain (env : SetupEnv) (inputs : List (List KeyEvent)) : MainResult :=
  match (quadSetup env).1 with
  | .panicked m => .panicked m
  | .ok => .returned (renderLoop ⟨false⟩ inputs)

/-! ## Matrices and the per-frame command traces

`mgl32.Mat4` is modelled as a `Matrix (Fin 4) (Fin 4) α` over an
abstract field `α` standing for the program's float32 values; the
transcendental operations (`math.Pi`, and the sin/cos used inside
`mgl32.HomogRotate3DZ`) are supplied as an abstract structure. -/

abbrev Mat4 (α : Type) := Matrix (Fin 4) (Fin 4) α

/-- The floating-point constants/functions of the Go `math` package that
the rotation code uses. -/
structure TrigOps (α : Type) where
  pi : α
  sin : α → α
  cos : α → α

/-- `mgl32.HomogRotate3DZ(angle)`: the mathgl source returns the
column-major array {cos, sin, 0, 0, -sin, cos, 0, 0, 0, 0, 1, 0,
0, 0, 0, 1}, i.e. the standard homogeneous rotation about the Z axis. -/
def homogRotate3DZ [Field α] (ops : TrigOps α) (angle : α) : Mat4 α :=
  !![ops.cos angle, -ops.sin angle, 0, 0;
     ops.sin angle, ops.cos angle, 0, 0;
     0, 0, 1, 0;
     0, 0, 0, 1]

/-- `mgl32.Translate3D(x, y, z)`. -/
def translate3D [Field α] (x y z : α) : Mat4 α :=
  !![1, 0, 0, x;
     0, 1, 0, y;
     0, 0, 1, z;
     0, 0, 0, 1]

/-- `mgl32.Scale3D(x, y, z)`. -/
def scale3D [Field α] (x y z : α) : Mat4 α :=
  !![x, 0, 0, 0;
     0, y, 0, 0;
     0, 0, z, 0;
     0, 0, 0, 1]

/-- Uniform locations, as opaque handles returned by
`GetUniformLocation` (one distinct value per uniform name). -/
def modelLocation : Nat := 0
def viewLocation : Nat := 1
def projLocation : Nat := 2
def overrideColorLocation : Nat := 3

/-- A GL (or GLFW) call issued from inside a render-loop body. -/
inductive GLCmd (α : Type) where
  | pollEvents
  | viewport (x y w h : Int)
  | clearColor (r g b a : α)
  | clear (mask : Nat)
  | uniformMatrix4fv (loc : Nat) (m : Mat4 α)
  | uniform3f (loc : Nat) (x y z : α)
  | drawArrays (mode : Nat) (first count : Int)
  | drawElements (mode : Nat) (count : Int) (indexType : Nat)
  | enable (cap : Nat)
  | disable (cap : Nat)
  | stencilFunc (fn : Nat) (ref : Int) (mask : Nat)
  | stencilOp (sfail dpfail dppass : Nat)
  | stencilMask (mask : Nat)
  | depthMask (flag : Bool)
  | getError
  | swapBuffers

/-- Per-iteration inputs of a render loop: the key events the
`PollEvents` call delivers, the wall-clock time `time.Since` reads, the
framebuffer size, and the error code `gl.GetError()` returns inside
`checkError`. -/
structure FrameInput (α : Type) where
  events : List KeyEvent
  now : α
  fbWidth : Int
  fbHeight : Int
  glError : Nat

/-- One loop-body iteration of the textured-quad program, in source
order (poll, recompute the model rotation from the current time, clear,
draw the two element-indexed triangles, poll the GL error, swap). -/
def quadFrame [Field α] (ops : TrigOps α) (startTime : α) (inp : FrameInput α) :
    List (GLCmd α) :=
  let diffTime := inp.now - startTime
  let model := homogRotate3DZ ops (ops.pi * diffTime)
  [ .pollEvents,
    .uniformMatrix4fv modelLocation model,
    .viewport 0 0 inp.fbWidth inp.fbHeight,
    .clearColor 0 0 0 1,
    .clear COLOR_BUFFER_BIT,
    .drawElements TRIANGLES 6 UNSIGNED_INT,
    .getError,
    .swapBuffers ]

/-- One loop-body iteration of the flat-color triangle program. -/
def triangleFrame [Field α] (inp : FrameInput α) : List (GLCmd α) :=
  [ .pollEvents,
    .viewport 0 0 inp.fbWidth inp.fbHeight,
    .clearColor 0 0 0 1,
    .clear COLOR_BUFFER_BIT,
    .drawArrays TRIANGLES 0 6,
    .getError,
    .swapBuffers ]

/-- One loop-body iteration of the reflective-cube program, in source
order: poll, clear color+depth, set the model rotation, draw the cube,
enable stenciling and draw the floor into the stencil buffer with depth
writes off, then draw the darkened reflected cube masked by the
stencil, restore the override color and disable stenciling, poll the GL
error, swap. -/
def cubeFrame [Field α] (ops : TrigOps α) (startTime : α) (inp : FrameInput α) :
    List (GLCmd α) :=
  let diffTime := inp.now - startTime
  let model := homogRotate3DZ ops (ops.pi * diffTime)
  let model2 := model * translate3D (0 : α) 0 (-1) * scale3D (1 : α) 1 (-1)
  [ .pollEvents,
    .viewport 0 0 inp.fbWidth inp.fbHeight,
    .clearColor 1 1 1 1,
    .clear (COLOR_BUFFER_BIT ||| DEPTH_BUFFER_BIT),
    .uniformMatrix4fv modelLocation model,
    .drawArrays TRIANGLES 0 36,
    .enable STENCIL_TEST,
    .stencilFunc ALWAYS 1 0xFF,
    .stencilOp KEEP KEEP REPLACE,
    .stencilMask 0xFF,
    .depthMask false,
    .clear STENCIL_BUFFER_BIT,
    .drawArrays TRIANGLES 36 6,
    .stencilFunc EQUAL 1 0xFF,
    .stencilMask 0x00,
    .depthMask true,
    .uniformMatrix4fv modelLocation model2,
    .uniform3f overrideColorLocation (3 / 10) (3 / 10) (3 / 10),
    .drawArrays TRIANGLES 0 36,
    .uniform3f overrideColorLocation 1 1 1,
    .disable STENCIL_TEST,
    .getError,
    .swapBuffers ]

/-- The loop body of the quad program as commands plus printed lines
(the `checkError("main loop")` output). -/
def quadStep [Field α] (ops : TrigOps α) (g : Nat → Except Unit String)
    (startTime : α) (inp : FrameInput α) : List (GLCmd α) × List String :=
  (quadFrame ops startTime inp, checkError g "main loop" inp.glError)

/-- The loop body of the cube program as commands plus printed lines. -/
def cubeStep [Field α] (ops : TrigOps α) (g : Nat → Except Unit String)
    (startTime : α) (inp : FrameInput α) : List (GLCmd α) × List String :=
  (cubeFrame ops startTime inp, checkError g "main loop" inp.glError)

/-- The loop body of the triangle program as commands plus printed lines. -/
def triangleStep [Field α] (g : Nat → Except Unit String)
    (inp : FrameInput α) : List (GLCmd α) × List String :=
  (triangleFrame inp, checkError g "main loop" inp.glError)

/-- The render loop with its per-iteration observations: while the
window is not flagged should-close, run the loop body on the next
frame's inputs (its `PollEvents` updating the window through the key
callback) and concatenate the emitted commands and printed lines. -/
def traceLoop (step : FrameInput α → List (GLCmd α) × List String) :
    Window → List (FrameInput α) → List (GLCmd α) × List String
  | _, [] => ([], [])
  | w, inp :: rest =>
    if w.shouldClose then ([], [])
    else
      ((step inp).1 ++ (traceLoop step (pollEvents w inp.events) rest).1,
       (step inp).2 ++ (traceLoop step (pollEvents w inp.events) rest).2)

/-- The first value stored in the `model` matrix uniform by a command
list, if any. -/
def firstModelUniform : List (GLCmd α) → Option (Mat4 α)
  | [] => none
  | .uniformMatrix4fv loc m :: rest =>
    if loc = modelLocation then some m else firstModelUniform rest
  | _ :: rest => firstModelUniform rest

/-- The GL calls the stencil-reflection recipe consists of: draws,
stencil-capability toggles, stencil function/op/mask configuration,
depth-write toggles, and stencil-buffer clears. -/
def stencilRelevant : GLCmd α → Bool
  | .drawArrays _ _ _ => true
  | .enable _ => true
  | .disable _ => true
  | .stencilFunc _ _ _ => true
  | .stencilOp _ _ _ => true
  | .stencilMask _ => true
  | .depthMask _ => true
  | .clear mask => mask == STENCIL_BUFFER_BIT
  | _ => false

/-- The pieces of GL server state the cube's loop body touches. -/
structure GLState (α : Type) where
  stencilTest : Bool
  depthWrite : Bool
  overrideColor : α × α × α
  stencilFuncVal : Nat × Int × Nat
  stencilOpVal : Nat × Nat × Nat
  stencilMaskVal : Nat

/-- Effect of one GL call on the modelled GL state.  `getError` only
reads the error flag: it changes nothing here. -/
def applyCmd (s : GLState α) : GLCmd α → GLState α
  | .enable cap => if cap = STENCIL_TEST then { s with stencilTest := true } else s
  | .disable cap => if cap = STENCIL_TEST then { s with stencilTest := false } else s
  | .depthMask flag => { s with depthWrite := flag }
  | .uniform3f loc x y z =>
    if loc = overrideColorLocation then { s with overrideColor := (x, y, z) } else s
  | .stencilFunc fn ref mask => { s with stencilFuncVal := (fn, ref, mask) }
  | .stencilOp a b c => { s with stencilOpVal := (a, b, c) }
  | .stencilMask mask => { s with stencilMaskVal := mask }
  | _ => s

/-- Fold a command list over the modelled GL state. -/
def applyCmds (s : GLState α) (cs : List (GLCmd α)) : GLState α :=
  cs.foldl applyCmd s

/-- Zero out the field of a frame input that records the polled GL
error (used to state that traces do not depend on it). -/
def clearErr (inp : FrameInput α) : FrameInput α := { inp with glError := NO_ERROR }

/-! ## Concrete sample inputs (used to instantiate the theorems) -/

/-- A 1x2 NRGBA image with 4-byte stride, rows `[1,2,3,4]` and `[5,6,7,8]`. -/
def sampleImg : NRGBAImage := ⟨1, 2, 4, [1, 2, 3, 4, 5, 6, 7, 8]⟩

/-- An environment in which every external call succeeds. -/
def okEnv : SetupEnv :=
  { glfwInitOk := true
    primaryMonitorOk := true
    createWindowOk := true
    openSampleOk := true
    sampleDecode := .nrgba sampleImg
    openSample2Ok := true
    sample2Decode := .nrgba sampleImg
    vertexCompileStatus := 1
    fragmentCompileStatus := 1
    linkOk := true
    validateStatus := 1 }

/-- Concrete stand-ins over `ℚ` for the float trig operations. -/
def qTrig : TrigOps ℚ := ⟨22 / 7, fun _ => 0, fun _ => 1⟩

/-- A concrete `glu.ErrorString` stand-in. -/
def gluStub : Nat → Except Unit String := fun _ => .ok "invalid operation"

/-- A concrete frame input over `ℚ`. -/
def sampleInput : FrameInput ℚ := ⟨[], 5, 800, 600, 0⟩

/-! ## Helper lemmas about the setups -/

@[simp] theorem opensOf_append (l1 l2 : List SetupEvent) :
    opensOf (l1 ++ l2) = opensOf l1 ++ opensOf l2 := by
  simp [opensOf]

@[simp] theorem buffersCreated_append (l1 l2 : List SetupEvent) :
    buffersCreated (l1 ++ l2) = buffersCreated l1 + buffersCreated l2 := by
  simp [buffersCreated]

@[simp] theorem opensOf_nil : opensOf [] = [] := rfl

@[simp] theorem opensOf_genVertexArray (l : List SetupEvent) :
    opensOf (SetupEvent.genVertexArray :: l) = opensOf l := rfl

@[simp] theorem opensOf_genBuffers (n : Nat) (l : List SetupEvent) :
    opensOf (SetupEvent.genBuffers n :: l) = opensOf l := rfl

@[simp] theorem opensOf_genTexture (l : List SetupEvent) :
    opensOf (SetupEvent.genTexture :: l) = opensOf l := rfl

@[simp] theorem opensOf_openFile (s : String) (l : List SetupEvent) :
    opensOf (SetupEvent.openFile s :: l) = s :: opensOf l := rfl

@[simp] theorem buffersCreated_nil : buffersCreated [] = 0 := rfl

@[simp] theorem buffersCreated_genVertexArray (l : List SetupEvent) :
    buffersCreated (SetupEvent.genVertexArray :: l) = buffersCreated l := by
  simp [buffersCreated]

@[simp] theorem buffersCreated_genBuffers (n : Nat) (l : List SetupEvent) :
    buffersCreated (SetupEvent.genBuffers n :: l) = n + buffersCreated l := by
  simp [buffersCreated]

@[simp] theorem buffersCreated_genTexture (l : List SetupEvent) :
    buffersCreated (SetupEvent.genTexture :: l) = buffersCreated l := by
  simp [buffersCreated]

@[simp] theorem buffersCreated_openFile (s : String) (l : List SetupEvent) :
    buffersCreated (SetupEvent.openFile s :: l) = buffersCreated l := by
  simp [buffersCreated]

theorem createTexture_events (r : DecodeResult) :
    (createTexture r).2 = [] ∨ (createTexture r).2 = [SetupEvent.genTexture] := by
  rcases r with m | _ | img
  · exact Or.inl rfl
  · exact Or.inl rfl
  · right
    simp only [createTexture]
    split <;> rfl

theorem opensOf_createTexture (r : DecodeResult) : opensOf (createTexture r).2 = [] := by
  rcases createTexture_events r with h | h <;> simp [h, opensOf]

theorem buffersCreated_createTexture (r : DecodeResult) :
    buffersCreated (createTexture r).2 = 0 := by
  rcases createTexture_events r with h | h <;> simp [h, buffersCreated]

theorem ctxSetup_facts (env : SetupEnv) :
    ((ctxSetup env).1 = SetupOutcome.ok ↔ ctxOk env = true)
    ∧ buffersCreated (ctxSetup env).2
        = (if env.glfwInitOk && env.primaryMonitorOk && env.createWindowOk then 1 else 0) := by
  unfold ctxSetup ctxOk
  cases hg : env.glfwInitOk <;> cases hp : env.primaryMonitorOk <;>
    cases hw : env.createWindowOk <;> simp [hg, hp, hw, buffersCreated]

theorem triangleSetup_facts (env : SetupEnv) :
    ((triangleSetup env).1 = SetupOutcome.ok ↔ triangleOk env = true)
    ∧ buffersCreated (triangleSetup env).2
        = (if env.glfwInitOk && env.createWindowOk then 1 else 0) := by
  unfold triangleSetup triangleOk
  cases hg : env.glfwInitOk <;> cases hw : env.createWindowOk <;>
    by_cases hv : env.vertexCompileStatus = glTRUE <;>
    by_cases hf : env.fragmentCompileStatus = glTRUE <;>
    by_cases hs : env.validateStatus = glTRUE <;>
    simp [hg, hw, hv, hf, hs, buffersCreated]

theorem cubeSetup_facts (env : SetupEnv) :
    ((cubeSetup env).1 = SetupOutcome.ok ↔ cubeOk env = true)
    ∧ opensOf (cubeSetup env).2
        = (if env.glfwInitOk && env.createWindowOk then
            "sample.png"
              :: (if env.openSampleOk && texOk env.sampleDecode then ["sample2.png"] else [])
          else [])
    ∧ buffersCreated (cubeSetup env).2
        = (if env.glfwInitOk && env.createWindowOk then 1 else 0) := by
  unfold cubeSetup cubeOk
  cases hg : env.glfwInitOk with
  | false => simp [hg]
  | true =>
  cases hw : env.createWindowOk with
  | false => simp [hg, hw]
  | true =>
  cases ho1 : env.openSampleOk with
  | false => simp [hg, hw, ho1]
  | true =>
  rcases h1 : (createTexture env.sampleDecode).1 with m1 | _ | u1
  · simp [hg, hw, ho1, h1, texOk, opensOf_append, buffersCreated_append,
      opensOf_createTexture, buffersCreated_createTexture]
  · simp [hg, hw, ho1, h1, texOk, opensOf_append, buffersCreated_append,
      opensOf_createTexture, buffersCreated_createTexture]
  cases ho2 : env.openSample2Ok with
  | false =>
    simp [hg, hw, ho1, ho2, h1, texOk, opensOf_append, buffersCreated_append,
      opensOf_createTexture, buffersCreated_createTexture]
  | true =>
  rcases h2 : (createTexture env.sample2Decode).1 with m2 | _ | u2 <;>
    by_cases hv : env.vertexCompileStatus = glTRUE <;>
    by_cases hf : env.fragmentCompileStatus = glTRUE <;>
    by_cases hs : env.validateStatus = glTRUE <;>
    simp [hg, hw, ho1, ho2, h1, h2, hv, hf, hs, texOk, opensOf_append,
      buffersCreated_append, opensOf_createTexture, buffersCreated_createTexture]

theorem quadSetup_facts (env : SetupEnv) :
    ((quadSetup env).1 = SetupOutcome.ok ↔ quadOk env = true)
    ∧ opensOf (quadSetup env).2
        = (if env.glfwInitOk && env.createWindowOk then
            "sample.png"
              :: (if env.openSampleOk && texOk env.sampleDecode then ["sample2.png"] else [])
          else [])
    ∧ buffersCreated (quadSetup env).2
        = (if env.glfwInitOk && env.createWindowOk then 2 else 0) := by
  unfold quadSetup quadOk cubeOk
  cases hg : env.glfwInitOk with
  | false => simp [hg]
  | true =>
  cases hw : env.createWindowOk with
  | false => simp [hg, hw]
  | true =>
  cases ho1 : env.openSampleOk with
  | false => simp [hg, hw, ho1]
  | true =>
  rcases h1 : (createTexture env.sampleDecode).1 with m1 | _ | u1
  · simp [hg, hw, ho1, h1, texOk, opensOf_append, buffersCreated_append,
      opensOf_createTexture, buffersCreated_createTexture]
  · simp [hg, hw, ho1, h1, texOk, opensOf_append, buffersCreated_append,
      opensOf_createTexture, buffersCreated_createTexture]
  cases ho2 : env.openSample2Ok with
  | false =>
    simp [hg, hw, ho1, ho2, h1, texOk, opensOf_append, buffersCreated_append,
      opensOf_createTexture, buffersCreated_createTexture]
  | true =>
  rcases h2 : (createTexture env.sample2Decode).1 with m2 | _ | u2 <;>
    by_cases hv : env.vertexCompileStatus = glTRUE <;>
    by_cases hf : env.fragmentCompileStatus = glTRUE <;>
    by_cases hs : env.validateStatus = glTRUE <;>
    simp [hg, hw, ho1, ho2, h1, h2, hv, hf, hs, texOk, opensOf_append,
      buffersCreated_append, opensOf_createTexture, buffersCreated_createTexture]

/-! ## Helper lemmas about traces and GL state -/

theorem applyCmds_append {α : Type} (s : GLState α) (l1 l2 : List (GLCmd α)) :
    applyCmds s (l1 ++ l2) = applyCmds (applyCmds s l1) l2 := by
  simp [applyCmds, List.foldl_append]

theorem cubeFrame_state {α : Type} [Field α] (ops : TrigOps α) (startTime : α)
    (inp : FrameInput α) (s0 : GLState α) :
    (applyCmds s0 (cubeFrame ops startTime inp)).stencilTest = false
    ∧ (applyCmds s0 (cubeFrame ops startTime inp)).overrideColor = (1, 1, 1) := by
  constructor <;> rfl

theorem cubeTrace_state {α : Type} [Field α] (ops : TrigOps α)
    (g : Nat → Except Unit String) (startTime : α) :
    ∀ (inputs : List (FrameInput α)) (w : Window) (s0 : GLState α),
      inputs ≠ [] → w.shouldClose = false →
        (applyCmds s0 (traceLoop (cubeStep ops g startTime) w inputs).1).stencilTest = false
        ∧ (applyCmds s0 (traceLoop (cubeStep ops g startTime) w inputs).1).overrideColor
            = (1, 1, 1) := by
  intro inputs
  induction inputs with
  | nil => intro w s0 h _; exact absurd rfl h
  | cons inp rest ih =>
    intro w s0 _ hw
    simp only [traceLoop, hw, Bool.false_eq_true, if_false, applyCmds_append]
    cases rest with
    | nil =>
      simpa [traceLoop, applyCmds] using cubeFrame_state ops startTime inp s0
    | cons r rs =>
      cases hc : (pollEvents w inp.events).shouldClose with
      | true =>
        simpa [traceLoop, hc, applyCmds, cubeStep] using cubeFrame_state ops startTime inp s0
      | false =>
        exact ih (pollEvents w inp.events) (applyCmds s0 (cubeStep ops g startTime inp).1)
          (List.cons_ne_nil r rs) hc

theorem traceLoop_cmds_congr {α : Type}
    (step : FrameInput α → List (GLCmd α) × List String)
    (hstep : ∀ i, (step (clearErr i)).1 = (step i).1) :
    ∀ (w : Window) (in1 in2 : List (FrameInput α)),
      in1.map clearErr = in2.map clearErr →
      (traceLoop step w in1).1 = (traceLoop step w in2).1 := by
  intro w in1
  induction in1 generalizing w with
  | nil =>
    intro in2 h
    cases in2 with
    | nil => rfl
    | cons j js => simp at h
  | cons i is ih =>
    intro in2 h
    cases in2 with
    | nil => simp at h
    | cons j js =>
      simp only [List.map_cons, List.cons.injEq] at h
      obtain ⟨hij, hrest⟩ := h
      have hev : i.events = j.events := by
        have := congrArg FrameInput.events hij
        simpa using this
      have hcmd : (step i).1 = (step j).1 := by
        rw [← hstep i, hij, hstep j]
      cases hw : w.shouldClose with
      | true => simp [traceLoop, hw]
      | false =>
        simp only [traceLoop, hw, Bool.false_eq_true, if_false]
        rw [hcmd, hev]
        exact congrArg (fun l => (step j).1 ++ l) (ih (pollEvents w j.events) js hrest)

/-! ## Helper lemmas about the flip loop -/

/-- The rows of `pix` (row length `L`, `k` rows starting at offset
`src`) concatenated in reverse order: the shape the flip loop gives to
the uploaded pixel buffer. -/
def revRows (pix : List Nat) (L : Nat) : Nat → Nat → List Nat
  | _, 0 => []
  | src, k + 1 => revRows pix L (src + L) k ++ (pix.drop src).take L

theorem revRows_length (pix : List Nat) (L : Nat) :
    ∀ (k src : Nat), src + L * k ≤ pix.length →
      (revRows pix L src k).length = L * k := by
  intro k
  induction k with
  | zero => intro src _; simp [revRows]
  | succ k ih =>
    intro src h
    rw [Nat.mul_succ] at h
    have h1 : (revRows pix L (src + L) k).length = L * k := ih (src + L) (by omega)
    simp only [revRows, List.length_append, List.length_take, List.length_drop, h1]
    rw [Nat.mul_succ]
    omega

theorem revRows_take (pix : List Nat) (L : Nat) :
    ∀ (k src j : Nat), j < k → src + L * k ≤ pix.length →
      ((revRows pix L src k).drop (L * j)).take L
        = (pix.drop (src + L * (k - 1 - j))).take L := by
  intro k
  induction k with
  | zero => intro src j hj _; omega
  | succ k ih =>
    intro src j hj h
    rw [Nat.mul_succ] at h
    by_cases hjk : j < k
    · have hlen : (revRows pix L (src + L) k).length = L * k :=
        revRows_length pix L k (src + L) (by omega)
      have hmul : L * (j + 1) ≤ L * k := by
        have := Nat.mul_le_mul_left L hjk
        simpa [Nat.mul_succ] using this
      rw [Nat.mul_succ] at hmul
      simp only [revRows]
      rw [List.drop_append_of_le_length (by omega)]
      rw [List.take_append_of_le_length (by simp [hlen]; omega)]
      rw [show (k + 1) - 1 - j = k - j from by omega]
      have hkj : k - j = (k - 1 - j) + 1 := by omega
      rw [show src + L * (k - j) = src + L + L * (k - 1 - j) from by
        rw [hkj, Nat.mul_succ]; omega]
      exact ih (src + L) j hjk (by omega)
    · have hj' : j = k := by omega
      subst hj'
      simp only [revRows]
      have hlen : (revRows pix L (src + L) j).length = L * j :=
        revRows_length pix L j (src + L) (by omega)
      rw [← hlen, List.drop_left, List.take_take, min_self]
      rw [show (j + 1) - 1 - j = 0 from by omega]
      simp

theorem flipLoop_spec (pix : List Nat) (L : Nat) (hL : 0 < L) :
    ∀ (k fuel src : Nat) (front tail : List Nat),
      k ≤ fuel →
      pix.length = src + L * k →
      front.length = L * k →
      flipLoop pix L L fuel src ((front.length : Int) - (L : Int)) (front ++ tail)
        = some (revRows pix L src k ++ tail) := by
  intro k
  induction k with
  | zero =>
    intro fuel src front tail _ hlen hfront
    rw [Nat.mul_zero] at hlen hfront
    have hsrc : ¬ src < pix.length := by omega
    have hfront0 : front = [] := List.length_eq_zero.mp hfront
    subst hfront0
    cases fuel with
    | zero => simp [flipLoop, hsrc, revRows]
    | succ f => simp [flipLoop, hsrc, revRows]
  | succ k ih =>
    intro fuel src front tail hfuel hlen hfront
    cases fuel with
    | zero => omega
    | succ f =>
      rw [Nat.mul_succ] at hlen hfront
      have hsrc : src < pix.length := by omega
      simp only [flipLoop]
      rw [if_pos hsrc, if_neg (by omega : ¬ L = 0),
        if_neg (by omega : ¬ pix.length < src + L),
        if_neg (by omega : ¬ ((front.length : Int) - (L : Int) < 0)),
        if_neg (by simp only [List.length_append]; omega :
          ¬ (((front ++ tail).length : Int) < (front.length : Int) - (L : Int) + (L : Int)))]
      have hD : ((front.length : Int) - (L : Int)).toNat = L * k := by omega
      have hgo : goCopy (front ++ tail) (L * k) (min L L) ((pix.drop src).take L)
          = front.take (L * k) ++ ((pix.drop src).take L ++ tail) := by
        unfold goCopy
        rw [min_self, List.take_append_of_le_length (by omega),
          List.take_take, min_self,
          show L * k + L = front.length from by omega, List.drop_left,
          List.append_assoc]
      rw [hD, hgo]
      have hfront' : (front.take (L * k)).length = L * k := by
        simp [List.length_take]
        omega
      rw [show (front.length : Int) - (L : Int) - (L : Int)
          = ((front.take (L * k)).length : Int) - (L : Int) from by rw [hfront']; omega]
      rw [ih f (src + L) (front.take (L * k)) ((pix.drop src).take L ++ tail)
        (by omega) (by omega) hfront']
      simp [revRows]

/-! ## Claim theorems -/

theorem cubeOk_eq_true_iff (env : SetupEnv) :
    cubeOk env = true
      ↔ env.glfwInitOk = true ∧ env.createWindowOk = true
        ∧ env.openSampleOk = true ∧ texOk env.sampleDecode = true
        ∧ env.openSample2Ok = true ∧ texOk env.sample2Decode = true
        ∧ env.vertexCompileStatus = glTRUE ∧ env.fragmentCompileStatus = glTRUE
        ∧ env.validateStatus = glTRUE := by
  simp [cubeOk, and_assoc]

/-- An environment whose vertex-shader compile reports a status other
than `gl.TRUE`. -/
def badVertexEnv : SetupEnv := { okEnv with vertexCompileStatus := 0 }

/-- An environment whose program link failed (hence, by the GL
semantics of `glValidateProgram`, whose validate status is not
`gl.TRUE`). -/
def badLinkEnv : SetupEnv := { okEnv with linkOk := false, validateStatus := 0 }

/-- C2: in each of the four programs the setup phase reaches the render
loop if and only if every fallible step succeeded (so any failure —
GLFW init, window creation, file open, texture decode, shader compile,
program validation — yields a `panicked` outcome, the only other form a
`SetupOutcome` can take); in particular a vertex- or fragment-shader
compile status other than `gl.TRUE` is fatal in the two texture
programs, and a failed link is fatal given the GL guarantee that a
program that failed to link never validates. -/
theorem C2_setup_failures_fatal :
    (∀ env : SetupEnv, (ctxSetup env).1 = SetupOutcome.ok ↔ ctxOk env = true)
    ∧ (∀ env : SetupEnv, (triangleSetup env).1 = SetupOutcome.ok ↔ triangleOk env = true)
    ∧ (∀ env : SetupEnv, (cubeSetup env).1 = SetupOutcome.ok ↔ cubeOk env = true)
    ∧ (∀ env : SetupEnv, (quadSetup env).1 = SetupOutcome.ok ↔ quadOk env = true)
    ∧ (∀ o : SetupOutcome, o = SetupOutcome.ok ∨ ∃ m, o = SetupOutcome.panicked m)
    ∧ (∀ env : SetupEnv, env.vertexCompileStatus ≠ glTRUE →
        ∃ m, (quadSetup env).1 = SetupOutcome.panicked m)
    ∧ (∀ env : SetupEnv, env.fragmentCompileStatus ≠ glTRUE →
        ∃ m, (quadSetup env).1 = SetupOutcome.panicked m)
    ∧ (∀ env : SetupEnv, env.vertexCompileStatus ≠ glTRUE →
        ∃ m, (cubeSetup env).1 = SetupOutcome.panicked m)
    ∧ (∀ env : SetupEnv, env.fragmentCompileStatus ≠ glTRUE →
        ∃ m, (cubeSetup env).1 = SetupOutcome.panicked m)
    ∧ (∀ env : SetupEnv,
        (env.linkOk = false → env.validateStatus ≠ glTRUE) → env.linkOk = false →
          ∃ m, (quadSetup env).1 = SetupOutcome.panicked m)
    ∧ (∀ env : SetupEnv,
        (env.linkOk = false → env.validateStatus ≠ glTRUE) → env.linkOk = false →
          ∃ m, (cubeSetup env).1 = SetupOutcome.panicked m) := by
  refine ⟨fun env => (ctxSetup_facts env).1, fun env => (triangleSetup_facts env).1,
    fun env => (cubeSetup_facts env).1, fun env => (quadSetup_facts env).1,
    ?_, ?_, ?_, ?_, ?_, ?_, ?_⟩
  · intro o
    cases o with
    | panicked m => exact Or.inr ⟨m, rfl⟩
    | ok => exact Or.inl rfl
  · intro env hv
    cases h : (quadSetup env).1 with
    | panicked m => exact ⟨m, rfl⟩
    | ok =>
      have hok := ((quadSetup_facts env).1).mp h
      simp [quadOk, cubeOk, hv] at hok
  · intro env hf
    cases h : (quadSetup env).1 with
    | panicked m => exact ⟨m, rfl⟩
    | ok =>
      have hok := ((quadSetup_facts env).1).mp h
      simp [quadOk, cubeOk, hf] at hok
  · intro env hv
    cases h : (cubeSetup env).1 with
    | panicked m => exact ⟨m, rfl⟩
    | ok =>
      have hok := ((cubeSetup_facts env).1).mp h
      simp [cubeOk, hv] at hok
  · intro env hf
    cases h : (cubeSetup env).1 with
    | panicked m => exact ⟨m, rfl⟩
    | ok =>
      have hok := ((cubeSetup_facts env).1).mp h
      simp [cubeOk, hf] at hok
  · intro env hGL hlk
    have hv := hGL hlk
    cases h : (quadSetup env).1 with
    | panicked m => exact ⟨m, rfl⟩
    | ok =>
      have hok := ((quadSetup_facts env).1).mp h
      simp [quadOk, cubeOk, hv] at hok
  · intro env hGL hlk
    have hv := hGL hlk
    cases h : (cubeSetup env).1 with
    | panicked m => exact ⟨m, rfl⟩
    | ok =>
      have hok := ((cubeSetup_facts env).1).mp h
      simp [cubeOk, hv] at hok

/-- C2 witness: a failed vertex compile and a failed link each panic at
concrete environments. -/
theorem C2_witness :
    (badVertexEnv.vertexCompileStatus ≠ glTRUE
      ∧ ∃ m, (quadSetup badVertexEnv).1 = SetupOutcome.panicked m)
    ∧ (badLinkEnv.linkOk = false
      ∧ ∃ m, (quadSetup badLinkEnv).1 = SetupOutcome.panicked m) :=
  ⟨⟨by decide, C2_setup_failures_fatal.2.2.2.2.2.1 badVertexEnv (by decide)⟩,
   ⟨rfl, C2_setup_failures_fatal.2.2.2.2.2.2.2.2.2.1 badLinkEnv (fun _ => by decide) rfl⟩⟩

/-- C6: `createTexture` returns an error (and generates no texture
object) when png decoding fails or when the decoded image is not NRGBA;
both texture programs treat a failed texture as fatal (setup never
reaches the loop); and the files a setup run opens are exactly
`sample.png` and `sample2.png` on a successful run, and never anything
else. -/
theorem C6_texture_files_and_errors :
    (∀ m, createTexture (DecodeResult.decodeError m)
        = (TexResult.errorReturn m, []))
    ∧ createTexture DecodeResult.notNRGBA
        = (TexResult.errorReturn "texture must be an NRGBA image", [])
    ∧ (∀ env : SetupEnv, texOk env.sampleDecode = false →
        (quadSetup env).1 ≠ SetupOutcome.ok)
    ∧ (∀ env : SetupEnv, texOk env.sample2Decode = false →
        (quadSetup env).1 ≠ SetupOutcome.ok)
    ∧ (∀ env : SetupEnv, texOk env.sampleDecode = false →
        (cubeSetup env).1 ≠ SetupOutcome.ok)
    ∧ (∀ env : SetupEnv, texOk env.sample2Decode = false →
        (cubeSetup env).1 ≠ SetupOutcome.ok)
    ∧ (∀ env : SetupEnv, (quadSetup env).1 = SetupOutcome.ok →
        opensOf (quadSetup env).2 = ["sample.png", "sample2.png"])
    ∧ (∀ env : SetupEnv, (cubeSetup env).1 = SetupOutcome.ok →
        opensOf (cubeSetup env).2 = ["sample.png", "sample2.png"])
    ∧ (∀ (env : SetupEnv) (f : String), f ∈ opensOf (quadSetup env).2 →
        f = "sample.png" ∨ f = "sample2.png")
    ∧ (∀ (env : SetupEnv) (f : String), f ∈ opensOf (cubeSetup env).2 →
        f = "sample.png" ∨ f = "sample2.png") := by
  refine ⟨fun m => rfl, rfl, ?_, ?_, ?_, ?_, ?_, ?_, ?_, ?_⟩
  · intro env ht hok
    have hq := ((quadSetup_facts env).1).mp hok
    simp [quadOk, cubeOk, ht] at hq
  · intro env ht hok
    have hq := ((quadSetup_facts env).1).mp hok
    simp [quadOk, cubeOk, ht] at hq
  · intro env ht hok
    have hq := ((cubeSetup_facts env).1).mp hok
    simp [cubeOk, ht] at hq
  · intro env ht hok
    have hq := ((cubeSetup_facts env).1).mp hok
    simp [cubeOk, ht] at hq
  · intro env hok
    have hq := (cubeOk_eq_true_iff env).mp (((quadSetup_facts env).1).mp hok)
    obtain ⟨hg, hw, ho1, ht1, ho2, ht2, hv, hf, hs⟩ := hq
    have ho := (quadSetup_facts env).2.1
    simp [hg, hw, ho1, ht1] at ho
    exact ho
  · intro env hok
    have hq := (cubeOk_eq_true_iff env).mp (((cubeSetup_facts env).1).mp hok)
    obtain ⟨hg, hw, ho1, ht1, ho2, ht2, hv, hf, hs⟩ := hq
    have ho := (cubeSetup_facts env).2.1
    simp [hg, hw, ho1, ht1] at ho
    exact ho
  · intro env f hf
    have ho := (quadSetup_facts env).2.1
    rw [ho] at hf
    split_ifs at hf <;> simp at hf <;> tauto
  · intro env f hf
    have ho := (cubeSetup_facts env).2.1
    rw [ho] at hf
    split_ifs at hf <;> simp at hf <;> tauto

/-- C6 witness: a decode error and a non-NRGBA image are rejected, and
an environment whose first texture is not NRGBA never reaches the loop. -/
theorem C6_witness :
    createTexture (DecodeResult.decodeError "unexpected EOF")
      = (TexResult.errorReturn "unexpected EOF", [])
    ∧ (texOk ({ okEnv with sampleDecode := .notNRGBA } : SetupEnv).sampleDecode = false
        ∧ (quadSetup { okEnv with sampleDecode := .notNRGBA }).1 ≠ SetupOutcome.ok)
    ∧ ((quadSetup okEnv).1 = SetupOutcome.ok
        ∧ opensOf (quadSetup okEnv).2 = ["sample.png", "sample2.png"]) :=
  ⟨C6_texture_files_and_errors.1 "unexpected EOF",
   ⟨rfl, C6_texture_files_and_errors.2.2.1 { okEnv with sampleDecode := .notNRGBA } rfl⟩,
   ⟨by decide, C6_texture_files_and_errors.2.2.2.2.2.2.1 okEnv (by decide)⟩⟩

/-- C7 counterexample: with every external call succeeding, the
textured-quad program's setup generates two GPU buffer objects (the
vertex buffer and the element buffer), not one. -/
theorem C7_counterexample :
    buffersCreated (quadSetup okEnv).2 = 2 ∧ (2 : Nat) ≠ 1 :=
  ⟨by decide, by decide⟩

/-- C7 (amended): once GLFW init, monitor lookup and window creation
succeed, the context-creation, triangle and reflective-cube programs
each generate exactly one GPU buffer object during setup, while the
textured-quad program generates exactly two. -/
theorem C7_amended_buffer_counts :
    ∀ env : SetupEnv,
      env.glfwInitOk = true → env.primaryMonitorOk = true → env.createWindowOk = true →
        buffersCreated (ctxSetup env).2 = 1
        ∧ buffersCreated (triangleSetup env).2 = 1
        ∧ buffersCreated (cubeSetup env).2 = 1
        ∧ buffersCreated (quadSetup env).2 = 2 := by
  intro env hg hp hw
  refine ⟨?_, ?_, ?_, ?_⟩
  · rw [(ctxSetup_facts env).2]
    simp [hg, hp, hw]
  · rw [(triangleSetup_facts env).2]
    simp [hg, hw]
  · rw [(cubeSetup_facts env).2.2]
    simp [hg, hw]
  · rw [(quadSetup_facts env).2.2]
    simp [hg, hw]

/-- C7 witness: the amended counts at the all-succeeding environment. -/
theorem C7_witness :
    okEnv.glfwInitOk = true ∧ okEnv.primaryMonitorOk = true
    ∧ okEnv.createWindowOk = true
    ∧ (buffersCreated (ctxSetup okEnv).2 = 1
        ∧ buffersCreated (triangleSetup okEnv).2 = 1
        ∧ buffersCreated (cubeSetup okEnv).2 = 1
        ∧ buffersCreated (quadSetup okEnv).2 = 2) :=
  ⟨rfl, rfl, rfl, C7_amended_buffer_counts okEnv rfl rfl rfl⟩

/-- C3: `HomogRotate3DZ` is the homogeneous rotation about the Z axis;
in both rotating programs each render-loop iteration stores, as its
first write to the `model` uniform, the rotation whose angle is the
elapsed time since loop start multiplied by π, recomputed from that
iteration's current time; and each non-final loop iteration contributes
exactly its own frame's commands to the trace. -/
theorem C3_rotation_angle_per_frame :
    (∀ (α : Type) [Field α] (ops : TrigOps α) (angle : α),
        homogRotate3DZ ops angle
          = !![ops.cos angle, -ops.sin angle, 0, 0;
               ops.sin angle, ops.cos angle, 0, 0;
               0, 0, 1, 0;
               0, 0, 0, 1])
    ∧ (∀ (α : Type) [Field α] (ops : TrigOps α) (startTime : α) (inp : FrameInput α),
        firstModelUniform (quadFrame ops startTime inp)
          = some (homogRotate3DZ ops (ops.pi * (inp.now - startTime))))
    ∧ (∀ (α : Type) [Field α] (ops : TrigOps α) (startTime : α) (inp : FrameInput α),
        firstModelUniform (cubeFrame ops startTime inp)
          = some (homogRotate3DZ ops (ops.pi * (inp.now - startTime))))
    ∧ (∀ (α : Type) [Field α] (ops : TrigOps α) (g : Nat → Except Unit String)
        (startTime : α) (w : Window) (inp : FrameInput α) (rest : List (FrameInput α)),
        w.shouldClose = false →
          (traceLoop (quadStep ops g startTime) w (inp :: rest)).1
            = quadFrame ops startTime inp
              ++ (traceLoop (quadStep ops g startTime) (pollEvents w inp.events) rest).1)
    ∧ (∀ (α : Type) [Field α] (ops : TrigOps α) (g : Nat → Except Unit String)
        (startTime : α) (w : Window) (inp : FrameInput α) (rest : List (FrameInput α)),
        w.shouldClose = false →
          (traceLoop (cubeStep ops g startTime) w (inp :: rest)).1
            = cubeFrame ops startTime inp
              ++ (traceLoop (cubeStep ops g startTime) (pollEvents w inp.events) rest).1) := by
  refine ⟨fun α _ ops angle => rfl, fun α _ ops st inp => rfl, fun α _ ops st inp => rfl,
    ?_, ?_⟩
  · intro α _ ops g st w inp rest hw
    simp [traceLoop, hw, quadStep]
  · intro α _ ops g st w inp rest hw
    simp [traceLoop, hw, cubeStep]

/-- C3 witness: the loop-unfolding clauses instantiated over `ℚ` at an
open window and a singleton schedule. -/
theorem C3_witness :
    (Window.mk false).shouldClose = false
    ∧ (traceLoop (quadStep qTrig gluStub 0) ⟨false⟩ [sampleInput]).1
        = quadFrame qTrig 0 sampleInput
          ++ (traceLoop (quadStep qTrig gluStub 0) (pollEvents ⟨false⟩ sampleInput.events) []).1
    ∧ (traceLoop (cubeStep qTrig gluStub 0) ⟨false⟩ [sampleInput]).1
        = cubeFrame qTrig 0 sampleInput
          ++ (traceLoop (cubeStep qTrig gluStub 0) (pollEvents ⟨false⟩ sampleInput.events) []).1 :=
  ⟨rfl,
   C3_rotation_angle_per_frame.2.2.2.1 ℚ qTrig gluStub 0 ⟨false⟩ sampleInput [] rfl,
   C3_rotation_angle_per_frame.2.2.2.2 ℚ qTrig gluStub 0 ⟨false⟩ sampleInput [] rfl⟩

/-- C4: restricted to draw, stencil, depth-write and stencil-clear
calls, every reflective-cube loop iteration issues exactly the claimed
fixed sequence, in order: cube draw (36 from 0), enable stencil test,
stencil func ALWAYS ref 1, stencil op REPLACE on pass, stencil write
mask 0xFF, depth writes off, stencil clear, floor draw (6 from 36),
stencil func EQUAL ref 1, stencil write mask 0x00, depth writes on,
reflected cube draw, disable stencil test. -/
theorem C4_stencil_call_order {α : Type} [Field α] (ops : TrigOps α)
    (startTime : α) (inp : FrameInput α) :
    (cubeFrame ops startTime inp).filter stencilRelevant
      = [GLCmd.drawArrays TRIANGLES 0 36,
         GLCmd.enable STENCIL_TEST,
         GLCmd.stencilFunc ALWAYS 1 0xFF,
         GLCmd.stencilOp KEEP KEEP REPLACE,
         GLCmd.stencilMask 0xFF,
         GLCmd.depthMask false,
         GLCmd.clear STENCIL_BUFFER_BIT,
         GLCmd.drawArrays TRIANGLES 36 6,
         GLCmd.stencilFunc EQUAL 1 0xFF,
         GLCmd.stencilMask 0x00,
         GLCmd.depthMask true,
         GLCmd.drawArrays TRIANGLES 0 36,
         GLCmd.disable STENCIL_TEST] := by
  rfl

/-- C9: folding one cube loop iteration over any starting GL state
leaves the stencil test disabled and the override color at white
(1,1,1); consequently the whole trace of any nonempty run ends in that
same stencil-disabled, white-override state every iteration started
from. -/
theorem C9_cube_state_restored :
    (∀ (α : Type) [Field α] (ops : TrigOps α) (startTime : α)
        (inp : FrameInput α) (s0 : GLState α),
        (applyCmds s0 (cubeFrame ops startTime inp)).stencilTest = false
        ∧ (applyCmds s0 (cubeFrame ops startTime inp)).overrideColor = (1, 1, 1))
    ∧ (∀ (α : Type) [Field α] (ops : TrigOps α) (g : Nat → Except Unit String)
        (startTime : α) (inputs : List (FrameInput α)) (w : Window) (s0 : GLState α),
        inputs ≠ [] → w.shouldClose = false →
          (applyCmds s0 (traceLoop (cubeStep ops g startTime) w inputs).1).stencilTest = false
          ∧ (applyCmds s0 (traceLoop (cubeStep ops g startTime) w inputs).1).overrideColor
              = (1, 1, 1)) :=
  ⟨fun α _ ops st inp s0 => cubeFrame_state ops st inp s0,
   fun α _ ops g st inputs w s0 hne hw => cubeTrace_state ops g st inputs w s0 hne hw⟩

/-- C9 witness: the trace clause instantiated over `ℚ` at a singleton
schedule from a fully-enabled starting state. -/
theorem C9_witness :
    ([sampleInput] ≠ ([] : List (FrameInput ℚ)))
    ∧ (Window.mk false).shouldClose = false
    ∧ (applyCmds ⟨true, true, (0, 0, 0), (0, 0, 0), (0, 0, 0), 0⟩
          (traceLoop (cubeStep qTrig gluStub 0) ⟨false⟩ [sampleInput]).1).stencilTest = false
    ∧ (applyCmds ⟨true, true, (0, 0, 0), (0, 0, 0), (0, 0, 0), 0⟩
          (traceLoop (cubeStep qTrig gluStub 0) ⟨false⟩ [sampleInput]).1).overrideColor
        = (1, 1, 1) := by
  refine ⟨List.cons_ne_nil _ _, rfl, ?_, ?_⟩
  · exact (C9_cube_state_restored.2 ℚ qTrig gluStub 0 [sampleInput] ⟨false⟩
      ⟨true, true, (0, 0, 0), (0, 0, 0), (0, 0, 0), 0⟩ (List.cons_ne_nil _ _) rfl).1
  · exact (C9_cube_state_restored.2 ℚ qTrig gluStub 0 [sampleInput] ⟨false⟩
      ⟨true, true, (0, 0, 0), (0, 0, 0), (0, 0, 0), 0⟩ (List.cons_ne_nil _ _) rfl).2

/-- C5: `checkError` prints nothing when the polled code is `NO_ERROR`
and exactly one diagnostic line otherwise; the commands a frame issues
do not depend on the polled error code (for each program's frame, and
for whole quad/cube traces whose inputs agree up to error codes); every
frame ends by polling the error and then swapping buffers; a loop whose
window is not flagged should-close always proceeds past the poll into
the next iteration; and the error poll leaves the modelled GL state
untouched. -/
theorem C5_error_poll_passive :
    (∀ (g : Nat → Except Unit String) (p : String), checkError g p NO_ERROR = [])
    ∧ (∀ (g : Nat → Except Unit String) (p : String) (e : Nat),
        e ≠ NO_ERROR → ∃ m, checkError g p e = [m])
    ∧ (∀ (α : Type) [Field α] (ops : TrigOps α) (startTime : α)
        (inp : FrameInput α) (e : Nat),
        quadFrame ops startTime { inp with glError := e } = quadFrame ops startTime inp)
    ∧ (∀ (α : Type) [Field α] (ops : TrigOps α) (startTime : α)
        (inp : FrameInput α) (e : Nat),
        cubeFrame ops startTime { inp with glError := e } = cubeFrame ops startTime inp)
    ∧ (∀ (α : Type) [Field α] (inp : FrameInput α) (e : Nat),
        triangleFrame { inp with glError := e } = (triangleFrame inp : List (GLCmd α)))
    ∧ (∀ (α : Type) [Field α] (ops : TrigOps α) (g : Nat → Except Unit String)
        (startTime : α) (w : Window) (in1 in2 : List (FrameInput α)),
        in1.map clearErr = in2.map clearErr →
          (traceLoop (quadStep ops g startTime) w in1).1
            = (traceLoop (quadStep ops g startTime) w in2).1)
    ∧ (∀ (α : Type) [Field α] (ops : TrigOps α) (g : Nat → Except Unit String)
        (startTime : α) (w : Window) (in1 in2 : List (FrameInput α)),
        in1.map clearErr = in2.map clearErr →
          (traceLoop (cubeStep ops g startTime) w in1).1
            = (traceLoop (cubeStep ops g startTime) w in2).1)
    ∧ (∀ (α : Type) [Field α] (ops : TrigOps α) (startTime : α) (inp : FrameInput α),
        ∃ pre : List (GLCmd α), quadFrame ops startTime inp = pre ++ [GLCmd.getError, GLCmd.swapBuffers])
    ∧ (∀ (α : Type) [Field α] (ops : TrigOps α) (startTime : α) (inp : FrameInput α),
        ∃ pre : List (GLCmd α), cubeFrame ops startTime inp = pre ++ [GLCmd.getError, GLCmd.swapBuffers])
    ∧ (∀ (α : Type) [Field α] (inp : FrameInput α),
        ∃ pre : List (GLCmd α), (triangleFrame inp : List (GLCmd α))
          = pre ++ [GLCmd.getError, GLCmd.swapBuffers])
    ∧ (∀ (α : Type) (step : FrameInput α → List (GLCmd α) × List String)
        (w : Window) (inp : FrameInput α) (rest : List (FrameInput α)),
        w.shouldClose = false →
          (traceLoop step w (inp :: rest)).1
            = (step inp).1 ++ (traceLoop step (pollEvents w inp.events) rest).1)
    ∧ (∀ (α : Type) (s : GLState α), applyCmd s GLCmd.getError = s) := by
  refine ⟨?_, ?_, fun α _ ops st inp e => rfl, fun α _ ops st inp e => rfl,
    fun α _ inp e => rfl,
    fun α _ ops g st w in1 in2 h =>
      traceLoop_cmds_congr (quadStep ops g st) (fun i => rfl) w in1 in2 h,
    fun α _ ops g st w in1 in2 h =>
      traceLoop_cmds_congr (cubeStep ops g st) (fun i => rfl) w in1 in2 h,
    ?_, ?_, ?_, ?_, fun α s => rfl⟩
  · intro g p
    simp [checkError]
  · intro g p e he
    unfold checkError
    rw [if_pos he]
    cases g e with
    | error u => exact ⟨p ++ ": unspecified error!", rfl⟩
    | ok s => exact ⟨p ++ " error: " ++ s, rfl⟩
  · intro α _ ops st inp
    exact ⟨(quadFrame ops st inp).take 6, rfl⟩
  · intro α _ ops st inp
    exact ⟨(cubeFrame ops st inp).take 21, rfl⟩
  · intro α _ inp
    exact ⟨(triangleFrame inp).take 5, rfl⟩
  · intro α step w inp rest hw
    simp [traceLoop, hw]

/-- C5 witness: a nonzero error code prints one line, equal error-free
schedules yield equal traces, and a not-closed window proceeds. -/
theorem C5_witness :
    ((1281 : Nat) ≠ NO_ERROR ∧ ∃ m, checkError gluStub "main loop" 1281 = [m])
    ∧ (traceLoop (quadStep qTrig gluStub 0) ⟨false⟩ [sampleInput]).1
        = (traceLoop (quadStep qTrig gluStub 0) ⟨false⟩ [sampleInput]).1
    ∧ (traceLoop (fun i => (triangleFrame i, checkError gluStub "main loop" i.glError))
          ⟨false⟩ ([sampleInput] : List (FrameInput ℚ))).1
        = (triangleFrame sampleInput, checkError gluStub "main loop" sampleInput.glError).1
          ++ (traceLoop (fun i => (triangleFrame i, checkError gluStub "main loop" i.glError))
              (pollEvents ⟨false⟩ sampleInput.events) []).1 :=
  ⟨⟨by decide, C5_error_poll_passive.2.1 gluStub "main loop" 1281 (by decide)⟩,
   C5_error_poll_passive.2.2.2.2.2.1 ℚ qTrig gluStub 0 ⟨false⟩ [sampleInput] [sampleInput] rfl,
   C5_error_poll_passive.2.2.2.2.2.2.2.2.2.2.1 ℚ
     (fun i => (triangleFrame i, checkError gluStub "main loop" i.glError))
     ⟨false⟩ sampleInput [] rfl⟩

/-- C8: for every NRGBA image shaped as `png.Decode` produces it
(stride `4*W`, `4*W*H` pixel bytes), `createTexture` succeeds and the
byte array it passes to `TexImage2D` has `W*H*4` bytes whose row `j`
(of length `W*4`) equals the first `W*4` bytes of source pixel row
`H-1-j`, for every `j < H`: the image is uploaded vertically flipped. -/
theorem C8_texture_vertical_flip (img : NRGBAImage)
    (hstride : img.stride = 4 * img.width)
    (hpix : img.pix.length = img.stride * img.height) :
    ∃ d : List Nat,
      createTexture (DecodeResult.nrgba img)
        = (TexResult.okTex ⟨img.width, img.height, d⟩, [SetupEvent.genTexture])
      ∧ d.length = img.width * img.height * 4
      ∧ ∀ j < img.height,
          (d.drop (j * (img.width * 4))).take (img.width * 4)
            = (img.pix.drop ((img.height - 1 - j) * img.stride)).take (img.width * 4) := by
  rcases Nat.eq_zero_or_pos img.width with hW | hW
  · -- degenerate zero-width image: no pixel bytes, empty upload
    have hpix0 : img.pix = [] := by
      refine List.length_eq_zero.mp ?_
      rw [hpix, hstride, hW]
      ring_nf
    refine ⟨[], ?_, by simp [hW], ?_⟩
    · simp only [createTexture, hpix0]
      simp [flipLoop, hW]
    · intro j hj
      simp [hW]
  · have hL : 0 < img.width * 4 := by omega
    have hfuel : img.height ≤ img.pix.length := by
      rw [hpix, hstride]
      exact Nat.le_mul_of_pos_left _ (by omega)
    have hlen : img.pix.length = 0 + img.width * 4 * img.height := by
      rw [hpix, hstride]
      ring
    have hfront : (List.replicate (img.width * img.height * 4) 0).length
        = img.width * 4 * img.height := by
      simp [List.length_replicate]
      ring
    have hspec := flipLoop_spec img.pix (img.width * 4) hL img.height img.pix.length 0
      (List.replicate (img.width * img.height * 4) 0) [] hfuel hlen hfront
    rw [List.append_nil, List.append_nil, List.length_replicate] at hspec
    refine ⟨revRows img.pix (img.width * 4) 0 img.height, ?_, ?_, ?_⟩
    · simp only [createTexture]
      rw [hstride, Nat.mul_comm 4 img.width, hspec]
    · rw [revRows_length img.pix (img.width * 4) img.height 0 (by omega)]
      ring
    · intro j hj
      rw [show j * (img.width * 4) = img.width * 4 * j from Nat.mul_comm _ _]
      rw [revRows_take img.pix (img.width * 4) img.height 0 j hj (by omega)]
      rw [show (img.height - 1 - j) * img.stride
          = 0 + img.width * 4 * (img.height - 1 - j) from by rw [hstride]; ring]

/-- C8 witness: the flip evaluated on the 1x2 sample image. -/
theorem C8_witness :
    sampleImg.stride = 4 * sampleImg.width
    ∧ sampleImg.pix.length = sampleImg.stride * sampleImg.height
    ∧ ∃ d : List Nat,
        createTexture (DecodeResult.nrgba sampleImg)
          = (TexResult.okTex ⟨sampleImg.width, sampleImg.height, d⟩, [SetupEvent.genTexture])
        ∧ d.length = sampleImg.width * sampleImg.height * 4
        ∧ ∀ j < sampleImg.height,
            (d.drop (j * (sampleImg.width * 4))).take (sampleImg.width * 4)
              = (sampleImg.pix.drop
                  ((sampleImg.height - 1 - j) * sampleImg.stride)).take (sampleImg.width * 4) :=
  ⟨rfl, rfl, C8_texture_vertical_flip sampleImg rfl rfl⟩

/-- C1: invoking the key callback with key Escape and action Press sets
the window's should-close flag; the render loop runs an iteration
exactly when the flag is false and returns 0 iterations once it is
true; and in each of the four programs, a `main` whose setup succeeded
finishes by returning normally with the loop's frame count. -/
theorem C1_escape_closes_loop_exits :
    (∀ (w : Window) (s : Int) (m : Nat),
        (handleKey w keyEscape s Action.press m).shouldClose = true)
    ∧ (∀ (w : Window) (bs : List (List KeyEvent)),
        w.shouldClose = true → renderLoop w bs = 0)
    ∧ (∀ (w : Window) (b : List KeyEvent) (bs : List (List KeyEvent)),
        w.shouldClose = false →
          renderLoop w (b :: bs) = 1 + renderLoop (pollEvents w b) bs)
    ∧ (∀ (env : SetupEnv) (inputs : List (List KeyEvent)),
        (ctxSetup env).1 = SetupOutcome.ok →
          ctxMain env inputs = MainResult.returned (renderLoop ⟨false⟩ inputs))
    ∧ (∀ (env : SetupEnv) (inputs : List (List KeyEvent)),
        (triangleSetup env).1 = SetupOutcome.ok →
          triangleMain env inputs = MainResult.returned (renderLoop ⟨false⟩ inputs))
    ∧ (∀ (env : SetupEnv) (inputs : List (List KeyEvent)),
        (cubeSetup env).1 = SetupOutcome.ok →
          cubeMain env inputs = MainResult.returned (renderLoop ⟨false⟩ inputs))
    ∧ (∀ (env : SetupEnv) (inputs : List (List KeyEvent)),
        (quadSetup env).1 = SetupOutcome.ok →
          quadMain env inputs = MainResult.returned (renderLoop ⟨false⟩ inputs)) := by
  refine ⟨?_, ?_, ?_, ?_, ?_, ?_, ?_⟩
  · intro w s m
    simp [handleKey, setShouldClose]
  · intro w bs h
    cases bs <;> simp [renderLoop, h]
  · intro w b bs h
    simp [renderLoop, h]
  · intro env inputs h
    simp [ctxMain, h]
  · intro env inputs h
    simp [triangleMain, h]
  · intro env inputs h
    simp [cubeMain, h]
  · intro env inputs h
    simp [quadMain, h]

/-- C1 witness: the theorem instantiated at concrete inputs. -/
theorem C1_witness :
    (handleKey ⟨false⟩ keyEscape 0 Action.press 0).shouldClose = true
    ∧ renderLoop ⟨true⟩ [[]] = 0
    ∧ renderLoop ⟨false⟩ [[]] = 1 + renderLoop (pollEvents ⟨false⟩ []) []
    ∧ ctxMain okEnv [] = MainResult.returned (renderLoop ⟨false⟩ []) :=
  ⟨C1_escape_closes_loop_exits.1 ⟨false⟩ 0 0,
   C1_escape_closes_loop_exits.2.1 ⟨true⟩ [[]] rfl,
   C1_escape_closes_loop_exits.2.2.1 ⟨false⟩ [] [] rfl,
   C1_escape_closes_loop_exits.2.2.2.1 okEnv [] (by decide)⟩

/-- C10: key events whose action is not Press, and Press events of keys
other than Escape, leave the window (in particular its should-close
flag) unchanged. -/
theorem C10_non_escape_events_ignored :
    ∀ (w : Window) (k : Nat) (s : Int) (a : Action) (m : Nat),
      (a ≠ Action.press → handleKey w k s a m = w)
      ∧ (k ≠ keyEscape → handleKey w k s a m = w) := by
  intro w k s a m
  constructor
  · intro h
    simp [handleKey, h]
  · intro h
    cases a <;> simp [handleKey, h]

/-- C10 witness: a key release of Escape and a press of key 65 (the
letter A) both leave the window unchanged. -/
theorem C10_witness :
    (Action.release ≠ Action.press →
      handleKey ⟨false⟩ keyEscape 0 Action.release 0 = ⟨false⟩)
    ∧ ((65 : Nat) ≠ keyEscape →
      handleKey ⟨false⟩ 65 0 Action.press 0 = ⟨false⟩)
    ∧ handleKey ⟨false⟩ keyEscape 0 Action.release 0 = ⟨false⟩
    ∧ handleKey ⟨false⟩ 65 0 Action.press 0 = ⟨false⟩ :=
  ⟨(C10_non_escape_events_ignored ⟨false⟩ keyEscape 0 Action.release 0).1,
   (C10_non_escape_events_ignored ⟨false⟩ 65 0 Action.press 0).2,
   (C10_non_escape_events_ignored ⟨false⟩ keyEscape 0 Action.release 0).1 (by decide),
   (C10_non_escape_events_ignored ⟨false⟩ 65 0 Action.press 0).2 (by decide)⟩

end GLTutorial
